import Mathlib

/-!
Verification development for the cvmaker Telegram bot (src/bot.py).

The Python source is shallowly embedded: mutable per-user session
dictionaries become a `Session` structure held in an association-list
store, Firestore orders become an `Order` structure in an order store,
and each bot handler becomes a pure Lean function from the session (or
the stores) and the inbound event to the updated state plus a list of
outbound effects.  Exceptions that the Python code catches are modelled
by `Option`/`Except` results and by explicit failure oracles
(`FetchResult`, `sendOk`), so every handler is a total function exactly
because every Python handler catches its exceptions.

The order model class `mainapp.models.Order` is not part of src/; its
transition operations are modelled from the spec (section 4.3) and are
marked as such in their doc comments.
-/

namespace CVMaker

/-- Association-list lookup, modelling a Python dict read (`d[k]` / `k in d`). -/
def lookupStore {α : Type} : List (String × α) → String → Option α
  | [], _ => none
  | (k, v) :: rest, key => if k = key then some v else lookupStore rest key

/-- Association-list update, modelling a Python dict write (`d[k] = v`). -/
def insertStore {α : Type} : List (String × α) → String → α → List (String × α)
  | [], key, v => [(key, v)]
  | (k, w) :: rest, key, v =>
      if k = key then (k, v) :: rest else (k, w) :: insertStore rest key v

theorem lookup_insertStore {α : Type} (l : List (String × α)) (k key : String) (v : α) :
    lookupStore (insertStore l k v) key = if k = key then some v else lookupStore l key := by
  induction l with
  | nil => simp [insertStore, lookupStore]
  | cons hd tl ih =>
    obtain ⟨k0, v0⟩ := hd
    simp only [insertStore]
    by_cases h0 : k0 = k
    · subst h0
      simp only [if_pos rfl, lookupStore]
      by_cases h1 : k0 = key <;> simp [h1]
    · simp only [if_neg h0, lookupStore, ih]
      by_cases h1 : k0 = key
      · subst h1
        simp [Ne.symm h0]
      · simp [h1]

/-- ASCII lowercase of one character, as Python `str.lower` acts on the
characters this bot compares. -/
def lcChar (c : Char) : Char :=
  if 65 ≤ c.toNat ∧ c.toNat ≤ 90 then Char.ofNat (c.toNat + 32) else c

/-- Python `s.lower()` (ASCII). -/
def pyLower (s : String) : String := ⟨s.data.map lcChar⟩

/-- Python `s.startswith(pre)`. -/
def pyStartsWith (s pre : String) : Bool := pre.data.isPrefixOf s.data

def wsChar (c : Char) : Bool := c = ' ' || c = '\t' || c = '\n' || c = '\r'

/-- Python `s.strip()` (the whitespace this bot encounters). -/
def pyTrim (s : String) : String :=
  ⟨((s.data.dropWhile wsChar).reverse.dropWhile wsChar).reverse⟩

/-- Python `s[n:]`. -/
def pyDrop (s : String) (n : Nat) : String := ⟨s.data.drop n⟩

/-- Worker for `pySplitOn`; the fuel starts at the string length, which
bounds the recursion, keeping the definition structural. -/
def splitOnGo (sep : List Char) : Nat → List Char → List Char → List (List Char)
  | _, [], acc => [acc.reverse]
  | 0, l, acc => [acc.reverse ++ l]
  | Nat.succ f, c :: rest, acc =>
    if sep.isPrefixOf (c :: rest) then
      acc.reverse :: splitOnGo sep f (List.drop (sep.length - 1) rest) []
    else splitOnGo sep f rest (c :: acc)

/-- Python `s.split(sep)` for a non-empty separator. -/
def pySplitOn (s sep : String) : List String :=
  (splitOnGo sep.data s.data.length s.data []).map (fun l => ⟨l⟩)

/-- Join with a separator, inverse of `pySplitOn` on its tail. -/
def joinSep (sep : String) : List String → String
  | [] => ""
  | [x] => x
  | x :: xs => x ++ sep ++ joinSep sep xs

/-- Python `s.replace(c, '')` for a one-character pattern: every
occurrence of the character is removed. -/
def pyRemoveAll (s : String) (c0 : Char) : String := ⟨s.data.filter (fun c => c ≠ c0)⟩

/-- Order status values used in Firestore documents (src/bot.py uses the
string values "awaiting_payment", "pending_verification", "verified",
"rejected"). -/
inductive OrderStatus
  | awaiting_payment
  | pending_verification
  | verified
  | rejected
deriving DecidableEq, Repr

/-- A status is terminal iff it is `verified` or `rejected`
(`order.status in ['verified', 'rejected']`, src/bot.py:263). -/
def OrderStatus.isTerminal : OrderStatus → Bool
  | .verified => true
  | .rejected => true
  | _ => false

/-- The order document: fields of `mainapp.models.Order` that src/bot.py
reads or writes (`id`, `candidateId`, `telegramUserId`, `status`,
`statusDetails`, `paymentVerified`). -/
structure Order where
  id : String
  candidateId : String := ""
  telegramUserId : String
  status : OrderStatus
  statusDetails : Option String := none
  paymentVerified : Bool := false
deriving DecidableEq, Repr

inductive OrderError
  | invalidTransition
deriving DecidableEq, Repr

/-- Modelled from the spec: `Order.approve_payment` lives in
`mainapp.models`, which is not under src/.  Spec section 4.3:
`approve(orderId)` moves status to `verified`, persisted synchronously,
and fails with `InvalidTransition` if the order is not currently
`pending_verification` (approving a rejected order is rejected). -/
def Order.approve_payment (o : Order) : Except OrderError Order :=
  if o.status = .pending_verification then
    .ok { o with status := .verified, paymentVerified := true }
  else .error .invalidTransition

/-- Modelled from the spec: `Order.reject_payment` lives in
`mainapp.models`, which is not under src/.  Spec sections 4.3 and 8:
`reject(orderId, reason)` moves status to `rejected` with the reason
stored (src/bot.py:271 reads it back from `statusDetails`), persisted
synchronously, and fails with `InvalidTransition` from a terminal state. -/
def Order.reject_payment (o : Order) (reason : String) : Except OrderError Order :=
  if o.status.isTerminal then .error .invalidTransition
  else .ok { o with status := .rejected, statusDetails := some reason, paymentVerified := false }

/-- `session['candidate_data']`: the scalar profile fields src/bot.py
writes.  A key that is absent or set to Python `None` is `none`. -/
structure CandidateData where
  availability : String := "To be specified"
  firstName : Option String := none
  middleName : Option String := none
  lastName : Option String := none
  phoneNumber : Option String := none
  emailAddress : Option String := none
  linkedinProfile : Option String := none
  city : Option String := none
  country : Option String := none
  profileImageUrl : Option String := none
deriving DecidableEq, Repr

/-- `session['current_work_experience']` draft / `workExperiences` items. -/
structure WorkExp where
  jobTitle : Option String := none
  companyName : Option String := none
  location : Option String := none
  description : Option String := none
deriving DecidableEq, Repr

/-- `session['current_education']` draft / `education` items. -/
structure Edu where
  degreeName : Option String := none
  institutionName : Option String := none
  gpa : Option String := none
  description : Option String := none
  achievementsHonors : Option String := none
deriving DecidableEq, Repr

/-- `session['current_skill']` draft / `skills` items. -/
structure SkillItem where
  skillName : Option String := none
  proficiency : Option String := none
deriving DecidableEq, Repr

/-- `session['current_certification']` draft / `certificationsAwards` items. -/
structure CertItem where
  certificateName : Option String := none
  issuer : Option String := none
deriving DecidableEq, Repr

/-- `session['current_project']` draft / `projects` items.  The
`projectLink` key is only written when the user does not skip
(src/bot.py:1059-1061), so it is `Option`. -/
structure ProjectItem where
  projectTitle : Option String := none
  description : Option String := none
  projectLink : Option String := none
deriving DecidableEq, Repr

/-- `session['current_language']` draft / `languages` items. -/
structure LanguageItem where
  languageName : Option String := none
  proficiencyLevel : Option String := none
deriving DecidableEq, Repr

/-- `careerObjectives` items (src/bot.py:978). -/
structure CareerObjectiveItem where
  summaryText : String
deriving DecidableEq, Repr

/-- `otherActivities` items (src/bot.py:1143). -/
structure ActivityItem where
  activityType : String
  description : String
deriving DecidableEq, Repr

/-- One entry of `self.user_sessions`.  Dict keys that may be absent
(`chat_id`, `order_id`) are `Option`; `notified` and `from_main_flow`
are read with `.get(..., False)`, so an absent key is `false`. -/
structure Session where
  language : String := "en"
  candidate_data : CandidateData := {}
  careerObjectives : List CareerObjectiveItem := []
  skills : List SkillItem := []
  education : List Edu := []
  languages : List LanguageItem := []
  workExperiences : List WorkExp := []
  certificationsAwards : List CertItem := []
  otherActivities : List ActivityItem := []
  projects : List ProjectItem := []
  current_field : Option String := none
  current_work_experience : WorkExp := {}
  current_education : Edu := {}
  current_skill : SkillItem := {}
  current_certification : CertItem := {}
  current_project : ProjectItem := {}
  current_language : LanguageItem := {}
  chat_id : Option Int := none
  order_id : Option String := none
  notified : Bool := false
  from_main_flow : Bool := false
deriving DecidableEq, Repr

/-- The session created by `CVBot.get_user_session` for a fresh user id
(src/bot.py:344-363): language 'en', empty section lists, empty drafts,
`current_field = None`, `candidate_data = {'availability': 'To be specified'}`. -/
def freshSession : Session := {}

/-- The process-wide `self.user_sessions` dictionary. -/
abbrev SessionStore := List (String × Session)

/-- `CVBot.get_user_session` (src/bot.py:342-364): create the default
session on first contact, otherwise return the stored one unchanged. -/
def get_user_session (st : SessionStore) (userId : String) : Session × SessionStore :=
  match lookupStore st userId with
  | some s => (s, st)
  | none => (freshSession, insertStore st userId freshSession)

theorem get_user_session_found (st : SessionStore) (userId : String) (s : Session)
    (h : lookupStore st userId = some s) : get_user_session st userId = (s, st) := by
  simp [get_user_session, h]

theorem get_user_session_fresh (st : SessionStore) (userId : String)
    (h : lookupStore st userId = none) :
    get_user_session st userId = (freshSession, insertStore st userId freshSession) := by
  simp [get_user_session, h]

/-- The conversation states of the wizard (src/bot.py:98-114), plus
`ConversationHandler.END`. -/
inductive ConvState
  | SELECT_LANGUAGE
  | START
  | COLLECT_PERSONAL_INFO
  | COLLECT_CONTACT_INFO
  | COLLECT_PROFILE_IMAGE
  | COLLECT_PROFESSIONAL_INFO
  | COLLECT_EDUCATION
  | COLLECT_SKILLS
  | COLLECT_CAREER_OBJECTIVE
  | COLLECT_CERTIFICATIONS
  | COLLECT_PROJECTS
  | COLLECT_LANGUAGES
  | COLLECT_ACTIVITIES
  | CONFIRM_ORDER
  | PAYMENT
  | END
deriving DecidableEq, Repr

/-- `CVBot.collect_personal_info` (src/bot.py:650-672).  Returns `none`
when no `current_field` branch matches (the Python function falls
through and returns `None`, leaving the conversation state unchanged). -/
def collect_personal_info (s : Session) (text : String) : Option (Session × ConvState) :=
  match s.current_field with
  | some "firstName" =>
      some ({ s with candidate_data := { s.candidate_data with firstName := some text },
                     current_field := some "middleName" }, .COLLECT_PERSONAL_INFO)
  | some "middleName" =>
      some ({ s with candidate_data := { s.candidate_data with middleName := some text },
                     current_field := some "lastName" }, .COLLECT_PERSONAL_INFO)
  | some "lastName" =>
      some ({ s with candidate_data := { s.candidate_data with lastName := some text },
                     current_field := some "phoneNumber" }, .COLLECT_CONTACT_INFO)
  | _ => none

/-- `CVBot.collect_contact_info` (src/bot.py:674-706).  At the
`linkedinProfile` field a literal case-insensitive 'skip' stores Python
`None` instead of the text (src/bot.py:693). -/
def collect_contact_info (s : Session) (text : String) : Option (Session × ConvState) :=
  match s.current_field with
  | some "phoneNumber" =>
      some ({ s with candidate_data := { s.candidate_data with phoneNumber := some text },
                     current_field := some "emailAddress" }, .COLLECT_CONTACT_INFO)
  | some "emailAddress" =>
      some ({ s with candidate_data := { s.candidate_data with emailAddress := some text },
                     current_field := some "linkedinProfile" }, .COLLECT_CONTACT_INFO)
  | some "linkedinProfile" =>
      some ({ s with candidate_data := { s.candidate_data with
                       linkedinProfile := if pyLower text = "skip" then none else some text },
                     current_field := some "city" }, .COLLECT_CONTACT_INFO)
  | some "city" =>
      some ({ s with candidate_data := { s.candidate_data with city := some text },
                     current_field := some "country" }, .COLLECT_CONTACT_INFO)
  | some "country" =>
      some ({ s with candidate_data := { s.candidate_data with country := some text },
                     current_field := none }, .COLLECT_PROFILE_IMAGE)
  | _ => none

/-- `CVBot.collect_professional_info` (src/bot.py:805-847).  'skip' on
the first field wipes `workExperiences` and jumps to education
(src/bot.py:814-819); completing the last field appends a copy of the
draft and clears it. -/
def collect_professional_info (s : Session) (text : String) : Option (Session × ConvState) :=
  match s.current_field with
  | some "work_jobTitle" =>
      if pyLower text = "skip" then
        some ({ s with workExperiences := [], current_field := some "edu_degreeName",
                       current_education := {} }, .COLLECT_EDUCATION)
      else
        some ({ s with current_work_experience :=
                         { s.current_work_experience with jobTitle := some text },
                       current_field := some "work_companyName" }, .COLLECT_PROFESSIONAL_INFO)
  | some "work_companyName" =>
      some ({ s with current_work_experience :=
                       { s.current_work_experience with companyName := some text },
                     current_field := some "work_location" }, .COLLECT_PROFESSIONAL_INFO)
  | some "work_location" =>
      some ({ s with current_work_experience :=
                       { s.current_work_experience with location := some text },
                     current_field := some "work_description" }, .COLLECT_PROFESSIONAL_INFO)
  | some "work_description" =>
      some ({ s with workExperiences := s.workExperiences ++
                       [{ s.current_work_experience with description := some text }],
                     current_work_experience := {} }, .COLLECT_PROFESSIONAL_INFO)
  | _ => none

/-- `CVBot.handle_professional_info_choice` (src/bot.py:849-866). -/
def handle_professional_info_choice (s : Session) (data : String) :
    Option (Session × ConvState) :=
  if data = "add_another_work" then
    some ({ s with current_field := some "work_jobTitle" }, .COLLECT_PROFESSIONAL_INFO)
  else if data = "continue_education" then
    some ({ s with current_field := some "edu_degreeName", current_education := {} },
          .COLLECT_EDUCATION)
  else none

/-- `CVBot.collect_education` (src/bot.py:868-907).  'skip' at the GPA
and achievements fields stores Python `None` (src/bot.py:887,897). -/
def collect_education (s : Session) (text : String) : Option (Session × ConvState) :=
  match s.current_field with
  | some "edu_degreeName" =>
      some ({ s with current_education := { s.current_education with degreeName := some text },
                     current_field := some "edu_institutionName" }, .COLLECT_EDUCATION)
  | some "edu_institutionName" =>
      some ({ s with current_education :=
                       { s.current_education with institutionName := some text },
                     current_field := some "edu_gpa" }, .COLLECT_EDUCATION)
  | some "edu_gpa" =>
      some ({ s with current_education := { s.current_education with
                       gpa := if pyLower text = "skip" then none else some text },
                     current_field := some "edu_description" }, .COLLECT_EDUCATION)
  | some "edu_description" =>
      some ({ s with current_education := { s.current_education with description := some text },
                     current_field := some "edu_achievementsHonors" }, .COLLECT_EDUCATION)
  | some "edu_achievementsHonors" =>
      some ({ s with education := s.education ++
                       [{ s.current_education with
                            achievementsHonors :=
                              if pyLower text = "skip" then none else some text }],
                     current_education := {} }, .COLLECT_EDUCATION)
  | _ => none

/-- `CVBot.handle_education_choice` (src/bot.py:909-925).  Note that the
'continue' branch sets `session['skills'] = []` and returns
`COLLECT_CAREER_OBJECTIVE`, skipping the skills section (src/bot.py:922-925). -/
def handle_education_choice (s : Session) (data : String) : Option (Session × ConvState) :=
  if data = "add_another_edu" then
    some ({ s with current_field := some "edu_degreeName" }, .COLLECT_EDUCATION)
  else if data = "continue_skills" then
    some ({ s with skills := [] }, .COLLECT_CAREER_OBJECTIVE)
  else none

/-- `CVBot.collect_skills` (src/bot.py:927-951). -/
def collect_skills (s : Session) (text : String) : Option (Session × ConvState) :=
  match s.current_field with
  | some "skill_skillName" =>
      some ({ s with current_skill := { s.current_skill with skillName := some text },
                     current_field := some "skill_proficiency" }, .COLLECT_SKILLS)
  | some "skill_proficiency" =>
      some ({ s with skills := s.skills ++
                       [{ s.current_skill with proficiency := some text }],
                     current_skill := {} }, .COLLECT_SKILLS)
  | _ => none

/-- `CVBot.handle_skills_choice` (src/bot.py:953-968). -/
def handle_skills_choice (s : Session) (data : String) : Option (Session × ConvState) :=
  if data = "add_another_skill" then
    some ({ s with current_field := some "skill_skillName" }, .COLLECT_SKILLS)
  else if data = "continue_career" then
    some (s, .COLLECT_CAREER_OBJECTIVE)
  else none

/-- `CVBot.collect_career_objective` (src/bot.py:970-985): a
case-insensitive 'skip' appends nothing. -/
def collect_career_objective (s : Session) (text : String) : Session × ConvState :=
  let s1 := if pyLower text = "skip" then s
            else { s with careerObjectives := s.careerObjectives ++ [⟨text⟩] }
  ({ s1 with current_field := some "cert_certificateName", current_certification := {} },
   .COLLECT_CERTIFICATIONS)

/-- `CVBot.collect_certifications` (src/bot.py:987-1020). -/
def collect_certifications (s : Session) (text : String) : Option (Session × ConvState) :=
  match s.current_field with
  | some "cert_certificateName" =>
      if pyLower text = "skip" then some (s, .COLLECT_CERTIFICATIONS)
      else
        some ({ s with current_certification :=
                         { s.current_certification with certificateName := some text },
                       current_field := some "cert_issuer" }, .COLLECT_CERTIFICATIONS)
  | some "cert_issuer" =>
      some ({ s with certificationsAwards := s.certificationsAwards ++
                       [{ s.current_certification with issuer := some text }],
                     current_certification := {} }, .COLLECT_CERTIFICATIONS)
  | _ => none

/-- `CVBot.handle_certifications_choice` (src/bot.py:1022-1039). -/
def handle_certifications_choice (s : Session) (data : String) :
    Option (Session × ConvState) :=
  if data = "add_another_cert" then
    some ({ s with current_field := some "cert_certificateName" }, .COLLECT_CERTIFICATIONS)
  else if data = "continue_projects" then
    some ({ s with current_field := some "project_projectTitle", current_project := {} },
          .COLLECT_PROJECTS)
  else none

/-- `CVBot.collect_projects` (src/bot.py:1041-1071).  At the link field
a 'skip' leaves the draft's `projectLink` key untouched
(src/bot.py:1059-1061). -/
def collect_projects (s : Session) (text : String) : Option (Session × ConvState) :=
  match s.current_field with
  | some "project_projectTitle" =>
      some ({ s with current_project := { s.current_project with projectTitle := some text },
                     current_field := some "project_description" }, .COLLECT_PROJECTS)
  | some "project_description" =>
      some ({ s with current_project := { s.current_project with description := some text },
                     current_field := some "project_projectLink" }, .COLLECT_PROJECTS)
  | some "project_projectLink" =>
      some ({ s with projects := s.projects ++
                       [if pyLower text = "skip" then s.current_project
                        else { s.current_project with projectLink := some text }],
                     current_project := {} }, .COLLECT_PROJECTS)
  | _ => none

/-- `CVBot.handle_projects_choice` (src/bot.py:1073-1090). -/
def handle_projects_choice (s : Session) (data : String) : Option (Session × ConvState) :=
  if data = "add_another_project" then
    some ({ s with current_field := some "project_projectTitle" }, .COLLECT_PROJECTS)
  else if data = "continue_languages" then
    some ({ s with current_field := some "lang_languageName", current_language := {} },
          .COLLECT_LANGUAGES)
  else none

/-- `CVBot.collect_languages` (src/bot.py:1092-1116). -/
def collect_languages (s : Session) (text : String) : Option (Session × ConvState) :=
  match s.current_field with
  | some "lang_languageName" =>
      some ({ s with current_language := { s.current_language with languageName := some text },
                     current_field := some "lang_proficiencyLevel" }, .COLLECT_LANGUAGES)
  | some "lang_proficiencyLevel" =>
      some ({ s with languages := s.languages ++
                       [{ s.current_language with proficiencyLevel := some text }],
                     current_language := {} }, .COLLECT_LANGUAGES)
  | _ => none

/-- `CVBot.handle_languages_choice` (src/bot.py:1118-1133). -/
def handle_languages_choice (s : Session) (data : String) : Option (Session × ConvState) :=
  if data = "add_another_language" then
    some ({ s with current_field := some "lang_languageName" }, .COLLECT_LANGUAGES)
  else if data = "continue_activities" then
    some (s, .COLLECT_ACTIVITIES)
  else none

/-- `CVBot.collect_activities` (src/bot.py:1135-1201): a 'skip' appends
nothing; the summary rendering has no state effect. -/
def collect_activities (s : Session) (text : String) : Session × ConvState :=
  (if pyLower text = "skip" then s
   else { s with otherActivities := s.otherActivities ++ [⟨"Other", text⟩] },
   .CONFIRM_ORDER)

/-- `CVBot.confirm_order` (src/bot.py:1203-1360).  On `confirm_yes` a
fresh order (uuid supplied as `newOrderId`) is created in
`awaiting_payment`, the session gets `order_id` and `notified = False`
(src/bot.py:1303-1313) and the state becomes `PAYMENT`.  On `edit_no`
the session is replaced, keeping only language and chat id
(src/bot.py:1339-1358); the replacement dict has no `order_id` or
`notified` keys. -/
def confirm_order (s : Session) (data : String) (telegramId newOrderId : String) :
    Option (Session × Option Order × ConvState) :=
  if data = "confirm_yes" then
    some ({ s with order_id := some newOrderId, notified := false, from_main_flow := true },
          some { id := newOrderId, telegramUserId := telegramId, status := .awaiting_payment },
          .PAYMENT)
  else if data = "edit_no" then
    some ({ language := s.language, chat_id := s.chat_id, current_field := some "firstName" },
          none, .COLLECT_PERSONAL_INFO)
  else none

/-- `CVBot.handle_payment_command` (src/bot.py:1655-1707).  The query
for the most recent rejected order is passed in as `rejected`; when one
exists the session is pointed at it and `notified` is reset to `False`
(src/bot.py:1692-1695).  `cand` is the candidate document loaded from
the store, if any. -/
def handle_payment_command (s : Session) (chatId : Int) (rejected : Option Order)
    (cand : Option CandidateData) : Session × ConvState :=
  match rejected with
  | none => ({ s with chat_id := some chatId }, .END)
  | some o =>
      ({ s with chat_id := some chatId,
                candidate_data := cand.getD s.candidate_data,
                order_id := some o.id, notified := false, from_main_flow := false },
       .PAYMENT)

/-- Annotations written into the admin-channel message caption by
`CVBot.handle_admin_response`. -/
inductive CaptionNote
  | approved
  | approvedSendFailed
  | rejected
  | rejectedSendFailed
  | invalidData
deriving DecidableEq, Repr

/-- Outbound effects of the admin handlers that we track: the terminal
notification sent to the submitter's chat, the plain replies sent back
into the admin channel, and caption edits. -/
inductive Effect
  | userVerified (chatId : Int)
  | userRejected (chatId : Int) (reason : String)
  | adminReply (msg : String)
  | editCaption (note : CaptionNote)
deriving DecidableEq, Repr

/-- Result of an admin handler run: the order store, the session store
and the outbound effects, in order. -/
structure HandlerOutcome where
  orders : List (String × Order)
  sessions : SessionStore
  effects : List Effect
deriving DecidableEq, Repr

/-- Python `s.split('_', 2)`: split on the first two underscores only
(src/bot.py:1563 `query.data.split('_', 2)`). -/
def pySplitMax2 (s : String) : List String :=
  match pySplitOn s "_" with
  | a :: b :: c :: rest => [a, b, joinSep "_" (c :: rest)]
  | parts => parts

/-- The order-id parse of `CVBot.handle_admin_reply`
(src/bot.py:1779-1787): the caption must start with '💳 Payment', and
the id is `caption.split('Order ID: ')[1].split('\n')[0].strip()`; a
missing piece (Python `IndexError`) yields `none`. -/
def captionOrderId (caption : String) : Option String :=
  if pyStartsWith caption "💳 Payment" then
    match (pySplitOn caption "Order ID: ").get? 1 with
    | some part => some (pyTrim ((pySplitOn part "\n").headD ""))
    | none => none
  else none

/-- The rejection reason extracted by `handle_admin_reply`
(src/bot.py:1811): `reply_text[7:].strip() or 'No reason provided'`,
computed on the lowercased reply. -/
def rejectReason (lowtext : String) : String :=
  if pyTrim (pyDrop lowtext 7) = "" then "No reason provided" else pyTrim (pyDrop lowtext 7)

/-- `CVBot.handle_admin_reply` (src/bot.py:1758-1823).  `text` is the
admin's reply text (`None` becomes ""), `caption` the caption of the
replied-to message (or `none`).  `sendOk` models whether the outbound
`send_message` to the submitter succeeds; when it fails the exception is
caught by the outer `except` (src/bot.py:1822) before
`session['notified'] = True` runs.  Note the dispatch: the guard accepts
any text starting with 'approve' (src/bot.py:1769), but the approval
branch fires only on exact equality `reply_text == 'approve'`
(src/bot.py:1800); all comparisons are on the lowercased text. -/
def handle_admin_reply (text caption : Option String) (orders : List (String × Order))
    (sessions : SessionStore) (sendOk : Bool) : HandlerOutcome :=
  let reply_text := pyLower (text.getD "")
  if pyStartsWith reply_text "approve" ∨ pyStartsWith reply_text "reject:" then
    match caption with
    | none => ⟨orders, sessions, []⟩
    | some cap =>
      match captionOrderId cap with
      | none => ⟨orders, sessions, []⟩
      | some oid =>
        match lookupStore orders oid with
        | none => ⟨orders, sessions, []⟩
        | some order =>
          let p := get_user_session sessions order.telegramUserId
          match p.1.chat_id with
          | none => ⟨orders, p.2, []⟩
          | some cid =>
            if reply_text = "approve" then
              match order.approve_payment with
              | .error _ => ⟨orders, p.2, []⟩
              | .ok o2 =>
                let orders1 := insertStore orders oid o2
                if p.1.notified then ⟨orders1, p.2, []⟩
                else if sendOk then
                  ⟨orders1,
                   insertStore p.2 order.telegramUserId { p.1 with notified := true },
                   [.userVerified cid]⟩
                else ⟨orders1, p.2, []⟩
            else if pyStartsWith reply_text "reject:" then
              let reason := rejectReason reply_text
              match order.reject_payment reason with
              | .error _ => ⟨orders, p.2, []⟩
              | .ok o2 =>
                let orders1 := insertStore orders oid o2
                if p.1.notified then ⟨orders1, p.2, []⟩
                else if sendOk then
                  ⟨orders1,
                   insertStore p.2 order.telegramUserId { p.1 with notified := true },
                   [.userRejected cid reason]⟩
                else ⟨orders1, p.2, []⟩
            else ⟨orders, p.2, []⟩
  else ⟨orders, sessions, []⟩

/-- `CVBot.handle_admin_response` (src/bot.py:1557-1624), the
button-press handler.  The callback token is split with
`split('_', 2)`; fewer than three parts raises `ValueError`, caught at
src/bot.py:1616-1621 with an 'Invalid callback data' caption edit and no
state change.  A failing transition or a failing send lands in the
inner `except` (src/bot.py:1590,1610) which edits the caption with an
error note and leaves `notified` unchanged.  Note: unlike the reply
handler, this handler never checks `session['notified']` before
sending. -/
def handle_admin_response (data : String) (orders : List (String × Order))
    (sessions : SessionStore) (sendOk : Bool) : HandlerOutcome :=
  match pySplitMax2 data with
  | [action, tid, oid] =>
    let p := get_user_session sessions tid
    match p.1.chat_id with
    | none => ⟨orders, p.2, [.adminReply "Error: User session not found."]⟩
    | some cid =>
      match lookupStore orders oid with
      | none => ⟨orders, p.2, [.adminReply "Error: Order not found."]⟩
      | some order =>
        if action = "approve" then
          match order.approve_payment with
          | .error _ => ⟨orders, p.2, [.editCaption .approvedSendFailed]⟩
          | .ok o2 =>
            let orders1 := insertStore orders oid o2
            if sendOk then
              ⟨orders1, insertStore p.2 tid { p.1 with notified := true },
               [.userVerified cid, .editCaption .approved]⟩
            else ⟨orders1, p.2, [.editCaption .approvedSendFailed]⟩
        else if action = "reject" then
          match order.reject_payment "No reason provided" with
          | .error _ => ⟨orders, p.2, [.editCaption .rejectedSendFailed]⟩
          | .ok o2 =>
            let orders1 := insertStore orders oid o2
            if sendOk then
              ⟨orders1, insertStore p.2 tid { p.1 with notified := true },
               [.userRejected cid "No reason provided", .editCaption .rejected]⟩
            else ⟨orders1, p.2, [.editCaption .rejectedSendFailed]⟩
        else ⟨orders, p.2, []⟩
  | _ => ⟨orders, sessions, [.editCaption .invalidData]⟩

/-- Outcome of `Order.get_by_id` inside the polling loop: a raised
exception, a missing document, or the document. -/
inductive FetchResult
  | fetchError
  | missing
  | found (o : Order)
deriving DecidableEq, Repr

/-- One tick of `CVBot.poll_order_status_changes` (src/bot.py:251-280).
The `try` wraps the whole `for` loop over `user_sessions.items()`, so
the first raised exception (order fetch at src/bot.py:259, or a failed
`send_message` at 265/272) leaves every remaining session of that tick
unprocessed; sessions already handled keep their updates.  `fetch`
models `Order.get_by_id`, `sendOk` the transport per chat id. -/
def pollTick (fetch : String → FetchResult) (sendOk : Int → Bool) :
    List (String × Session) → List (String × Session)
  | [] => []
  | (uid, s) :: rest =>
    match s.order_id, s.chat_id with
    | some oid, some cid =>
      (match fetch oid with
       | .fetchError => (uid, s) :: rest
       | .missing => (uid, s) :: pollTick fetch sendOk rest
       | .found o =>
         if o.status.isTerminal && !s.notified then
           if sendOk cid then (uid, { s with notified := true }) :: pollTick fetch sendOk rest
           else (uid, s) :: rest
         else (uid, s) :: pollTick fetch sendOk rest)
    | _, _ => (uid, s) :: pollTick fetch sendOk rest

/-- The `while True` of `poll_order_status_changes`: the per-tick
`except` (src/bot.py:278-279) only logs, so every scheduled tick runs
`pollTick` on whatever state the previous tick left. -/
def pollLoop : List ((String → FetchResult) × (Int → Bool)) →
    List (String × Session) → List (String × Session)
  | [], st => st
  | (f, sok) :: ticks, st => pollLoop ticks (pollTick f sok st)

/-- Abstract state shared by the three notification paths for one
session/order pair: the order status, the session's `notified` flag and
the number of notifications actually delivered to the submitter. -/
structure NotifyState where
  status : OrderStatus
  notified : Bool
  deliveries : Nat
deriving DecidableEq, Repr

/-- Atomic steps of the notification paths.  A guard that fails models
a Python conditional that skips the rest of the handler, or an order
operation that raises (caught by the handler, which then does nothing
further on this path). -/
inductive MicroOp
  | approvePersist
  | guardTerminalNotNotified
  | guardNotNotified
  | send
  | setNotified
deriving DecidableEq, Repr

def runOp (s : NotifyState) : MicroOp → Option NotifyState
  | .approvePersist =>
      if s.status = .pending_verification then some { s with status := .verified } else none
  | .guardTerminalNotNotified =>
      if s.status.isTerminal && !s.notified then some s else none
  | .guardNotNotified => if !s.notified then some s else none
  | .send => some { s with deliveries := s.deliveries + 1 }
  | .setNotified => some { s with notified := true }

def runBlock (s : NotifyState) : List MicroOp → Option NotifyState
  | [] => some s
  | op :: ops =>
    match runOp s op with
    | some s1 => runBlock s1 ops
    | none => none

/-- An actor is a list of atomic blocks; control can only pass to
another actor between blocks, which is exactly the cooperative `await`
boundary of the asyncio dispatch (spec section 5): all synchronous
statements between two awaits run without interleaving. -/
abbrev NotifyActor := List (List MicroOp)

/-- Run actors under an explicit interleaving: `sched` names, in order,
the actor whose next block runs.  A failed guard drops the actor's
remaining blocks (the handler returned / the exception was caught). -/
def runSched (sched : List Nat) (actors : List NotifyActor) (s : NotifyState) : NotifyState :=
  match sched with
  | [] => s
  | i :: rest =>
    match actors.get? i with
    | none => runSched rest actors s
    | some [] => runSched rest actors s
    | some (b :: bs) =>
      match runBlock s b with
      | some s1 => runSched rest (actors.set i bs) s1
      | none => runSched rest (actors.set i []) s

/-- The reconciler's notification path for one session
(src/bot.py:263-277): check status and `notified`, `await send_message`
(one yield boundary), then set `notified = True`. -/
def reconcilerNotifyActor : NotifyActor :=
  [[.guardTerminalNotNotified, .send], [.setNotified]]

/-- The free-text approval path of `handle_admin_reply`
(src/bot.py:1800-1809): persist the transition, check `notified`,
`await send_message` (yield boundary), then set `notified = True`. -/
def adminReplyApproveActor : NotifyActor :=
  [[.approvePersist, .guardNotNotified, .send], [.setNotified]]

/-- The button approval path of `handle_admin_response`
(src/bot.py:1577-1589): persist, send, set `notified = True` — with no
check of `notified` before sending. -/
def adminButtonApproveActor : NotifyActor :=
  [[.approvePersist, .send], [.setNotified]]

/-- External lookup tiers of `CVBot.resolve_username_to_id`. -/
inductive Tier
  | getChat
  | getAdmins
  | getMember
deriving DecidableEq, Repr

/-- The result of `bot.get_chat`: the chat type string and id. -/
structure ChatInfo where
  type_ : String
  id : Int
deriving DecidableEq, Repr

/-- A channel administrator / member as seen by the resolver. -/
structure MemberInfo where
  username : Option String
  userId : Int
deriving DecidableEq, Repr

/-- The Telegram API surface the resolver calls; `none` models a raised
(and caught) error, or an absent member. -/
structure TgWorld where
  getChat : String → Option ChatInfo
  getAdmins : Option (List MemberInfo)
  getMember : String → Option MemberInfo

/-- Handle normalization (src/bot.py:292):
`username.replace('@', '').lower()`. -/
def normalizeHandle (u : String) : String := pyLower (pyRemoveAll u '@')

/-- Tier 2 (src/bot.py:301-314): `get_chat`, accepted only when the
chat is private; any error falls through. -/
def tier2Result (w : TgWorld) (clean : String) : Option Int :=
  match w.getChat ("@" ++ clean) with
  | some c => if c.type_ = "private" then some c.id else none
  | none => none

/-- Tier 3 (src/bot.py:316-326): scan the private channel's
administrators for a matching username (Python skips an empty username
because `'' and ...` is falsy). -/
def tier3Result (w : TgWorld) (clean : String) : Option Int :=
  match w.getAdmins with
  | some admins =>
      (admins.find? (fun a =>
        match a.username with
        | some u => !(u = "") && pyLower u = clean
        | none => false)).map (·.userId)
  | none => none

/-- Tier 4 (src/bot.py:328-337): `get_chat_member` on the private
channel. -/
def tier4Result (w : TgWorld) (clean : String) : Option Int :=
  (w.getMember ("@" ++ clean)).map (·.userId)

/-- `CVBot.resolve_username_to_id` (src/bot.py:290-340): cache, then
`get_chat` (private chats only), then channel administrators, then
channel member; the first success wins and populates the cache
(src/bot.py:306,322,333); exhausting every tier raises `ValueError`.
The third component records which external tiers were invoked. -/
def resolve_username_to_id (w : TgWorld) (cache : List (String × Int)) (username : String) :
    Except Unit Int × List (String × Int) × List Tier :=
  match lookupStore cache (normalizeHandle username) with
  | some uid => (.ok uid, cache, [])
  | none =>
    match tier2Result w (normalizeHandle username) with
    | some uid => (.ok uid, insertStore cache (normalizeHandle username) uid, [.getChat])
    | none =>
      match tier3Result w (normalizeHandle username) with
      | some uid =>
          (.ok uid, insertStore cache (normalizeHandle username) uid, [.getChat, .getAdmins])
      | none =>
        match tier4Result w (normalizeHandle username) with
        | some uid =>
            (.ok uid, insertStore cache (normalizeHandle username) uid,
             [.getChat, .getAdmins, .getMember])
        | none => (.error (), cache, [.getChat, .getAdmins, .getMember])

/-- Concrete inputs used by the claim theorems below. -/
def orderPending : Order := { id := "O1", telegramUserId := "42", status := .pending_verification }

def sessionWithChat : Session := { chat_id := some 7 }

def paymentCap : String := "💳 Payment Screenshot Received\n\n📋 Order ID: O1\n📞 Phone: 1"

/-- C1: the terminal-state notification is claimed to be delivered at
most once per order across any interleaving of the polling loop and the
admin handlers, the check/decide/set of `notified` acting as a critical
section.  The code has no such critical section: starting from a
pending order with `notified = false`, the schedule 0,1,0,1 lets the
free-text approval handler (actor 0) persist the transition, pass its
`notified` check and send, and — while its send is awaited — lets a
reconciler tick (actor 1) pass the same check and send again: two
deliveries for one terminal transition.  Separately, the button handler
sends without consulting `notified` at all, so it delivers even when
the flag is already set. -/
theorem claim_C1_double_delivery :
    runSched [0, 1, 0, 1] [adminReplyApproveActor, reconcilerNotifyActor]
      ⟨.pending_verification, false, 0⟩ = ⟨.verified, true, 2⟩ ∧
    runSched [0, 0] [adminButtonApproveActor] ⟨.pending_verification, true, 0⟩ =
      ⟨.verified, true, 1⟩ := by
  constructor <;> decide

/-- C7 counterexample: from a session whose skills sequence already
holds one appended item, choosing 'continue' after the Education
section does not enter the Skills state — it jumps to
CareerObjective — and it discards the appended skill items
(src/bot.py:922-925). -/
theorem claim_C7_counterexample :
    (handle_education_choice
        { skills := [{ skillName := some "python", proficiency := some "expert" }] }
        "continue_skills").map Prod.snd ≠ some ConvState.COLLECT_SKILLS ∧
    (handle_education_choice
        { skills := [{ skillName := some "python", proficiency := some "expert" }] }
        "continue_skills").map (fun r => r.1.skills) = some [] := by
  constructor <;> decide

/-- C7 amended: after the Education section, 'continue' jumps directly
to CareerObjective and clears the skills sequence (the Skills section is
reachable only through 'add another skill' or the edit menu); every
other 'continue' choice keeps all section sequences, and every 'add
another' choice returns to the section's first field. -/
theorem claim_C7_wizard_traversal (s : Session) :
    handle_education_choice s "continue_skills" =
      some ({ s with skills := [] }, .COLLECT_CAREER_OBJECTIVE) ∧
    handle_skills_choice s "continue_career" = some (s, .COLLECT_CAREER_OBJECTIVE) ∧
    handle_professional_info_choice s "continue_education" =
      some ({ s with current_field := some "edu_degreeName", current_education := {} },
            .COLLECT_EDUCATION) ∧
    handle_certifications_choice s "continue_projects" =
      some ({ s with current_field := some "project_projectTitle", current_project := {} },
            .COLLECT_PROJECTS) ∧
    handle_projects_choice s "continue_languages" =
      some ({ s with current_field := some "lang_languageName", current_language := {} },
            .COLLECT_LANGUAGES) ∧
    handle_languages_choice s "continue_activities" = some (s, .COLLECT_ACTIVITIES) ∧
    handle_education_choice s "add_another_edu" =
      some ({ s with current_field := some "edu_degreeName" }, .COLLECT_EDUCATION) ∧
    handle_skills_choice s "add_another_skill" =
      some ({ s with current_field := some "skill_skillName" }, .COLLECT_SKILLS) ∧
    handle_professional_info_choice s "add_another_work" =
      some ({ s with current_field := some "work_jobTitle" }, .COLLECT_PROFESSIONAL_INFO) := by
  refine ⟨rfl, rfl, rfl, rfl, rfl, rfl, rfl, rfl, rfl⟩

/-- C9: a button action token that does not split into three
delimiter-separated parts makes `query.data.split('_', 2)` raise
`ValueError`, which the handler catches: it annotates the admin message
with an invalid-data error and changes no order and no session; being a
total function of its inputs, the handler lets no exception escape. -/
theorem claim_C9_malformed_token (data : String) (orders : List (String × Order))
    (sessions : SessionStore) (sendOk : Bool)
    (h : (pySplitMax2 data).length < 3) :
    handle_admin_response data orders sessions sendOk =
      ⟨orders, sessions, [.editCaption .invalidData]⟩ := by
  rcases hp : pySplitMax2 data with _ | ⟨a, _ | ⟨b, _ | ⟨c, rest⟩⟩⟩
  · simp [handle_admin_response, hp]
  · simp [handle_admin_response, hp]
  · simp [handle_admin_response, hp]
  · rw [hp] at h
    simp at h
    omega

/-- Witness for C9 at the concrete token 'approve_123' (only one
underscore: two parts). -/
theorem claim_C9_witness :
    (pySplitMax2 "approve_123").length < 3 ∧
    handle_admin_response "approve_123" [("O1", orderPending)] [("42", sessionWithChat)] true =
      ⟨[("O1", orderPending)], [("42", sessionWithChat)], [.editCaption .invalidData]⟩ :=
  ⟨by decide, claim_C9_malformed_token "approve_123" [("O1", orderPending)]
      [("42", sessionWithChat)] true (by decide)⟩

/-- C10: `get_user_session` is idempotent with fixed defaults — the
first call for an identity stores and returns the default session
(language 'en', all eight section sequences empty, all draft items
empty, no current field), and any call for an identity already present
returns the stored session unmodified and leaves the store unchanged. -/
theorem claim_C10_session_defaults (st : SessionStore) (userId : String) :
    (lookupStore st userId = none →
      get_user_session st userId = (freshSession, insertStore st userId freshSession) ∧
      lookupStore (insertStore st userId freshSession) userId = some freshSession) ∧
    (∀ s : Session, lookupStore st userId = some s → get_user_session st userId = (s, st)) ∧
    freshSession.language = "en" ∧
    freshSession.workExperiences = [] ∧ freshSession.education = [] ∧
    freshSession.skills = [] ∧ freshSession.careerObjectives = [] ∧
    freshSession.certificationsAwards = [] ∧ freshSession.projects = [] ∧
    freshSession.languages = [] ∧ freshSession.otherActivities = [] ∧
    freshSession.current_field = none ∧
    freshSession.current_work_experience = {} ∧ freshSession.current_education = {} ∧
    freshSession.current_skill = {} ∧ freshSession.current_certification = {} ∧
    freshSession.current_project = {} ∧ freshSession.current_language = {} ∧
    freshSession.candidate_data = { availability := "To be specified" } := by
  refine ⟨fun h => ⟨get_user_session_fresh st userId h, ?_⟩,
          fun s h => get_user_session_found st userId s h,
          rfl, rfl, rfl, rfl, rfl, rfl, rfl, rfl, rfl, rfl, rfl, rfl, rfl, rfl, rfl, rfl, rfl⟩
  rw [lookup_insertStore]
  simp

/-- Witness for C10: a store not containing 'u9' but containing '42'. -/
theorem claim_C10_witness :
    (get_user_session [("42", sessionWithChat)] "u9" =
        (freshSession, insertStore [("42", sessionWithChat)] "u9" freshSession) ∧
      lookupStore (insertStore [("42", sessionWithChat)] "u9" freshSession) "u9" =
        some freshSession) ∧
    get_user_session [("42", sessionWithChat)] "42" = (sessionWithChat, [("42", sessionWithChat)]) :=
  ⟨(claim_C10_session_defaults [("42", sessionWithChat)] "u9").1 (by decide),
   (claim_C10_session_defaults [("42", sessionWithChat)] "42").2.1 sessionWithChat (by decide)⟩

/-- A verified order for the C3 scenario. -/
def verifiedOrderFor (oid tid : String) : Order :=
  { id := oid, telegramUserId := tid, status := .verified }

/-- Fetch oracle for the C3 scenario: both orders exist and are verified. -/
def fetchC3 : String → FetchResult := fun oid =>
  if oid = "O1" then .found (verifiedOrderFor "O1" "u1")
  else if oid = "O2" then .found (verifiedOrderFor "O2" "u2")
  else .missing

/-- Send oracle for the C3 scenario: delivery to chat 1 fails, delivery
to chat 2 would succeed. -/
def sendC3 : Int → Bool := fun c => c ≠ 1

def sessC3a : Session := { chat_id := some 1, order_id := some "O1" }

def sessC3b : Session := { chat_id := some 2, order_id := some "O2" }

/-- C3 counterexample: in one tick over two due sessions, the delivery
failure on the first session prevents the second session from being
processed at all — alone, the very same second session would have been
notified in the same tick with the same oracles (the `try` at
src/bot.py:254 wraps the whole `for` loop, so the first exception
abandons the rest of the tick). -/
theorem claim_C3_counterexample :
    pollTick fetchC3 sendC3 [("u1", sessC3a), ("u2", sessC3b)] =
      [("u1", sessC3a), ("u2", sessC3b)] ∧
    pollTick fetchC3 sendC3 [("u2", sessC3b)] =
      [("u2", { sessC3b with notified := true })] := by
  constructor <;> decide

/-- C3 amended: a failure while processing one session (order fetch
error or delivery error) aborts the remainder of that tick — every
session after the failing one is left unprocessed — but the exception
is caught at tick level, so the loop always proceeds to run the next
tick on the resulting store. -/
theorem claim_C3_tick_isolation :
    (∀ (fetch : String → FetchResult) (sok : Int → Bool) (uid : String) (s : Session)
        (rest : List (String × Session)) (oid : String) (cid : Int),
      s.order_id = some oid → s.chat_id = some cid → fetch oid = .fetchError →
      pollTick fetch sok ((uid, s) :: rest) = (uid, s) :: rest) ∧
    (∀ (fetch : String → FetchResult) (sok : Int → Bool) (uid : String) (s : Session)
        (rest : List (String × Session)) (oid : String) (cid : Int) (o : Order),
      s.order_id = some oid → s.chat_id = some cid → fetch oid = .found o →
      o.status.isTerminal = true → s.notified = false → sok cid = false →
      pollTick fetch sok ((uid, s) :: rest) = (uid, s) :: rest) ∧
    (∀ (f : String → FetchResult) (sok : Int → Bool)
        (ticks : List ((String → FetchResult) × (Int → Bool))) (st : List (String × Session)),
      pollLoop ((f, sok) :: ticks) st = pollLoop ticks (pollTick f sok st)) := by
  refine ⟨fun fetch sok uid s rest oid cid h1 h2 h3 => ?_,
          fun fetch sok uid s rest oid cid o h1 h2 h3 h4 h5 h6 => ?_,
          fun f sok ticks st => rfl⟩
  · simp [pollTick, h1, h2, h3]
  · simp [pollTick, h1, h2, h3, h4, h5, h6]

/-- Witness for C3 at the concrete two-session scenario: a fetch error
aborts the tick, a send failure aborts the tick, and the next tick runs
on the result. -/
theorem claim_C3_witness :
    pollTick (fun _ => .fetchError) sendC3 [("u1", sessC3a), ("u2", sessC3b)] =
      [("u1", sessC3a), ("u2", sessC3b)] ∧
    pollTick fetchC3 sendC3 [("u1", sessC3a)] = [("u1", sessC3a)] ∧
    pollLoop [(fetchC3, sendC3)] [("u1", sessC3a)] =
      pollLoop [] (pollTick fetchC3 sendC3 [("u1", sessC3a)]) :=
  ⟨claim_C3_tick_isolation.1 (fun _ => .fetchError) sendC3 "u1" sessC3a [("u2", sessC3b)]
      "O1" 1 rfl rfl rfl,
   claim_C3_tick_isolation.2.1 fetchC3 sendC3 "u1" sessC3a [] "O1" 1
      (verifiedOrderFor "O1" "u1") rfl rfl (by decide) rfl rfl (by decide),
   claim_C3_tick_isolation.2.2 fetchC3 sendC3 [] [("u1", sessC3a)]⟩

/-- A tick of the polling loop never clears a session's `notified`
flag: a session stored with `notified = true` is returned untouched
(the loop only ever writes `notified = True`, src/bot.py:277). -/
theorem pollTick_keeps_notified (fetch : String → FetchResult) (sok : Int → Bool) :
    ∀ (l : List (String × Session)) (uid : String) (s : Session),
      lookupStore l uid = some s → s.notified = true →
      lookupStore (pollTick fetch sok l) uid = some s := by
  intro l
  induction l with
  | nil => intro uid s h; simp [lookupStore] at h
  | cons hd tl ih =>
    intro uid s h hn
    obtain ⟨k, x⟩ := hd
    by_cases hk : k = uid
    · subst hk
      have hx : some x = some s := by simpa [lookupStore] using h
      have hxn : x.notified = true := by
        injection hx with hx2
        rw [hx2]; exact hn
      simp only [pollTick]
      rcases ho : x.order_id with _ | oid
      · simpa [ho, lookupStore] using hx
      rcases hc : x.chat_id with _ | cid
      · simpa [ho, hc, lookupStore] using hx
      simp only [ho, hc]
      rcases hf : fetch oid with _ | _ | o
      · simpa [lookupStore] using hx
      · simpa [lookupStore] using hx
      · have hg : (o.status.isTerminal && !x.notified) = false := by simp [hxn]
        simpa [hg, lookupStore] using hx
    · have h2 : lookupStore tl uid = some s := by simpa [lookupStore, hk] using h
      simp only [pollTick]
      rcases ho : x.order_id with _ | oid
      · simpa [ho, lookupStore, hk] using ih uid s h2 hn
      rcases hc : x.chat_id with _ | cid
      · simpa [ho, hc, lookupStore, hk] using ih uid s h2 hn
      simp only [ho, hc]
      rcases hf : fetch oid with _ | _ | o
      · simpa [lookupStore, hk] using h2
      · simpa [lookupStore, hk] using ih uid s h2 hn
      · by_cases hg : (o.status.isTerminal && !x.notified) = true
        · rcases hs : sok cid
          · simp [hg, hs, lookupStore, hk, h2]
          · simp [hg, hs, lookupStore, hk, ih uid s h2 hn]
        · have hg2 : (o.status.isTerminal && !x.notified) = false := by
            simpa using hg
          simp [hg2, lookupStore, hk, ih uid s h2 hn]

/-- A lookup that succeeds still succeeds, unchanged, after
`get_user_session` runs for any (possibly different) key: the only
store write it can make is inserting a fresh session under an absent
key. -/
theorem lookup_gus (sessions : SessionStore) (tid uid : String) (s : Session)
    (h : lookupStore sessions uid = some s) :
    lookupStore (get_user_session sessions tid).2 uid = some s := by
  unfold get_user_session
  rcases ht : lookupStore sessions tid with _ | t
  · simp only
    rw [lookup_insertStore]
    by_cases he : tid = uid
    · subst he; rw [ht] at h; cases h
    · simp [he, h]
  · simpa using h

/-- The session store produced by `handle_admin_reply` is the input
store, the input store after a `get_user_session`, or that store with
one session's `notified` set to `true`; no other write exists in the
handler. -/
theorem admin_reply_sessions_shape (text caption : Option String)
    (orders : List (String × Order)) (sessions : SessionStore) (sendOk : Bool) :
    (handle_admin_reply text caption orders sessions sendOk).sessions = sessions ∨
    (∃ tid, (handle_admin_reply text caption orders sessions sendOk).sessions =
      (get_user_session sessions tid).2) ∨
    (∃ tid sess, (handle_admin_reply text caption orders sessions sendOk).sessions =
      insertStore (get_user_session sessions tid).2 tid sess ∧ sess.notified = true) := by
  simp only [handle_admin_reply]
  repeat' split
  all_goals
    first
      | exact Or.inl rfl
      | exact Or.inr (Or.inl ⟨_, rfl⟩)
      | exact Or.inr (Or.inr ⟨_, _, rfl, rfl⟩)

/-- Same shape fact for the button handler `handle_admin_response`. -/
theorem admin_response_sessions_shape (data : String)
    (orders : List (String × Order)) (sessions : SessionStore) (sendOk : Bool) :
    (handle_admin_response data orders sessions sendOk).sessions = sessions ∨
    (∃ tid, (handle_admin_response data orders sessions sendOk).sessions =
      (get_user_session sessions tid).2) ∨
    (∃ tid sess, (handle_admin_response data orders sessions sendOk).sessions =
      insertStore (get_user_session sessions tid).2 tid sess ∧ sess.notified = true) := by
  simp only [handle_admin_response]
  repeat' split
  all_goals
    first
      | exact Or.inl rfl
      | exact Or.inr (Or.inl ⟨_, rfl⟩)
      | exact Or.inr (Or.inr ⟨_, _, rfl, rfl⟩)

/-- `handle_admin_reply` never clears a `notified` flag: a session
stored as notified stays notified. -/
theorem admin_reply_keeps_notified (text caption : Option String)
    (orders : List (String × Order)) (sessions : SessionStore) (sendOk : Bool)
    (uid : String) (s : Session)
    (h : lookupStore sessions uid = some s) (hn : s.notified = true) :
    ∃ s2, lookupStore (handle_admin_reply text caption orders sessions sendOk).sessions uid =
      some s2 ∧ s2.notified = true := by
  rcases admin_reply_sessions_shape text caption orders sessions sendOk with
    hs | ⟨tid, hs⟩ | ⟨tid, sess, hs, hsn⟩
  · exact ⟨s, by rw [hs]; exact h, hn⟩
  · exact ⟨s, by rw [hs]; exact lookup_gus sessions tid uid s h, hn⟩
  · rw [hs, lookup_insertStore]
    by_cases he : tid = uid
    · exact ⟨sess, by simp [he], hsn⟩
    · exact ⟨s, by simp [he, lookup_gus sessions tid uid s h], hn⟩

/-- `handle_admin_response` never clears a `notified` flag. -/
theorem admin_response_keeps_notified (data : String)
    (orders : List (String × Order)) (sessions : SessionStore) (sendOk : Bool)
    (uid : String) (s : Session)
    (h : lookupStore sessions uid = some s) (hn : s.notified = true) :
    ∃ s2, lookupStore (handle_admin_response data orders sessions sendOk).sessions uid =
      some s2 ∧ s2.notified = true := by
  rcases admin_response_sessions_shape data orders sessions sendOk with
    hs | ⟨tid, hs⟩ | ⟨tid, sess, hs, hsn⟩
  · exact ⟨s, by rw [hs]; exact h, hn⟩
  · exact ⟨s, by rw [hs]; exact lookup_gus sessions tid uid s h, hn⟩
  · rw [hs, lookup_insertStore]
    by_cases he : tid = uid
    · exact ⟨sess, by simp [he], hsn⟩
    · exact ⟨s, by simp [he, lookup_gus sessions tid uid s h], hn⟩

/-- A session that was already notified for its (rejected) active
order: the `/payment` retry scenario. -/
def notifiedSession : Session := { chat_id := some 7, order_id := some "O1", notified := true }

def rejectedOrderC2 : Order := { id := "O1", telegramUserId := "42", status := .rejected }

/-- C2 counterexample: `handle_payment_command` resets `notified` to
false while re-associating the very same order the session already
holds (the most recent rejected order is 'O1', which is already
`session['order_id']`), so the flag is cleared by an operation that
does not associate a new order (src/bot.py:1692-1695). -/
theorem claim_C2_counterexample :
    notifiedSession.notified = true ∧
    (handle_payment_command notifiedSession 7 (some rejectedOrderC2) none).1.order_id =
      notifiedSession.order_id ∧
    (handle_payment_command notifiedSession 7 (some rejectedOrderC2) none).1.notified = false := by
  refine ⟨rfl, ?_, rfl⟩
  decide

/-- C2 amended: `notified` is reset to false only by the operations
that set or clear the session's order association — order creation on
confirm, the `/payment` retry command (which may re-associate the same
rejected order, so the flag can transition false-to-true more than once
for one order), and the edit path that discards the session's data and
association; the polling loop and both admin handlers only ever raise
the flag, never clear it. -/
theorem claim_C2_notified_reset_discipline :
    (∀ (s : Session) (tid nid : String),
      confirm_order s "confirm_yes" tid nid =
        some ({ s with order_id := some nid, notified := false, from_main_flow := true },
              some { id := nid, telegramUserId := tid, status := .awaiting_payment },
              .PAYMENT)) ∧
    (∀ (s : Session) (cid : Int) (o : Order) (cand : Option CandidateData),
      (handle_payment_command s cid (some o) cand).1.notified = false ∧
      (handle_payment_command s cid (some o) cand).1.order_id = some o.id) ∧
    (∀ (s : Session) (tid nid : String),
      confirm_order s "edit_no" tid nid =
        some ({ language := s.language, chat_id := s.chat_id,
                current_field := some "firstName" },
              none, .COLLECT_PERSONAL_INFO) ∧
      ({ language := s.language, chat_id := s.chat_id,
         current_field := some "firstName" } : Session).notified = false ∧
      ({ language := s.language, chat_id := s.chat_id,
         current_field := some "firstName" } : Session).order_id = none) ∧
    (∀ (fetch : String → FetchResult) (sok : Int → Bool) (l : List (String × Session))
        (uid : String) (s : Session),
      lookupStore l uid = some s → s.notified = true →
      lookupStore (pollTick fetch sok l) uid = some s) ∧
    (∀ (text caption : Option String) (orders : List (String × Order))
        (sessions : SessionStore) (sendOk : Bool) (uid : String) (s : Session),
      lookupStore sessions uid = some s → s.notified = true →
      ∃ s2, lookupStore (handle_admin_reply text caption orders sessions sendOk).sessions uid =
        some s2 ∧ s2.notified = true) ∧
    (∀ (data : String) (orders : List (String × Order))
        (sessions : SessionStore) (sendOk : Bool) (uid : String) (s : Session),
      lookupStore sessions uid = some s → s.notified = true →
      ∃ s2, lookupStore (handle_admin_response data orders sessions sendOk).sessions uid =
        some s2 ∧ s2.notified = true) :=
  ⟨fun _ _ _ => rfl,
   fun _ _ _ _ => ⟨rfl, rfl⟩,
   fun _ _ _ => ⟨rfl, rfl, rfl⟩,
   fun fetch sok l uid s h hn => pollTick_keeps_notified fetch sok l uid s h hn,
   fun text caption orders sessions sendOk uid s h hn =>
     admin_reply_keeps_notified text caption orders sessions sendOk uid s h hn,
   fun data orders sessions sendOk uid s h hn =>
     admin_response_keeps_notified data orders sessions sendOk uid s h hn⟩

/-- Witness for C2 at concrete inputs: a confirm, a retry, a poll tick
over a notified session, and both admin handlers over a notified
session. -/
theorem claim_C2_witness :
    confirm_order notifiedSession "confirm_yes" "42" "O9" =
      some ({ notifiedSession with
                order_id := some "O9", notified := false, from_main_flow := true },
            some { id := "O9", telegramUserId := "42", status := .awaiting_payment },
            .PAYMENT) ∧
    (handle_payment_command notifiedSession 7 (some rejectedOrderC2) none).1.notified = false ∧
    lookupStore (pollTick fetchC3 sendC3 [("42", notifiedSession)]) "42" =
      some notifiedSession ∧
    (∃ s2, lookupStore (handle_admin_reply (some "approve") (some paymentCap)
        [("O1", orderPending)] [("42", notifiedSession)] true).sessions "42" =
      some s2 ∧ s2.notified = true) ∧
    (∃ s2, lookupStore (handle_admin_response "approve_42_O1"
        [("O1", orderPending)] [("42", notifiedSession)] true).sessions "42" =
      some s2 ∧ s2.notified = true) :=
  ⟨claim_C2_notified_reset_discipline.1 notifiedSession "42" "O9",
   (claim_C2_notified_reset_discipline.2.1 notifiedSession 7 rejectedOrderC2 none).1,
   claim_C2_notified_reset_discipline.2.2.2.1 fetchC3 sendC3 [("42", notifiedSession)]
     "42" notifiedSession (by decide) rfl,
   claim_C2_notified_reset_discipline.2.2.2.2.1 (some "approve") (some paymentCap)
     [("O1", orderPending)] [("42", notifiedSession)] true "42" notifiedSession
     (by decide) rfl,
   claim_C2_notified_reset_discipline.2.2.2.2.2 "approve_42_O1"
     [("O1", orderPending)] [("42", notifiedSession)] true "42" notifiedSession
     (by decide) rfl⟩

/-- C4 counterexample: the reply 'approve now' begins with 'approve'
(case-insensitively), the caption parses to order 'O1', the order is
pending and the submitter's session has a chat id — yet the handler
approves nothing and sends nothing, because the code requires the whole
lowercased reply to equal 'approve' (src/bot.py:1800), not merely to
begin with it. -/
theorem claim_C4_counterexample :
    pyStartsWith (pyLower "approve now") "approve" = true ∧
    captionOrderId paymentCap = some "O1" ∧
    orderPending.status = .pending_verification ∧
    sessionWithChat.chat_id = some 7 ∧
    handle_admin_reply (some "approve now") (some paymentCap)
        [("O1", orderPending)] [("42", sessionWithChat)] true =
      ⟨[("O1", orderPending)], [("42", sessionWithChat)], []⟩ := by
  refine ⟨by decide, by decide, rfl, rfl, by decide⟩

/-- C4 amended: a reply whose lowercased text is exactly 'approve'
approves the referenced pending order and notifies the submitter; a
reply whose lowercased text begins with 'reject:' rejects a non-terminal
referenced order with the trimmed remainder of the lowercased text as
reason (defaulting when empty) and notifies; a reply that merely begins
with 'approve' without being exactly 'approve' is ignored with no state
change; and a reply whose referenced order cannot be parsed from the
caption is ignored without surfacing any error or effect. -/
theorem claim_C4_admin_reply_grammar :
    (∀ (text cap : String) (orders : List (String × Order)) (sessions : SessionStore)
        (oid : String) (o : Order) (s : Session) (cid : Int),
      pyLower text = "approve" →
      captionOrderId cap = some oid →
      lookupStore orders oid = some o →
      o.status = .pending_verification →
      lookupStore sessions o.telegramUserId = some s →
      s.chat_id = some cid →
      s.notified = false →
      handle_admin_reply (some text) (some cap) orders sessions true =
        ⟨insertStore orders oid { o with status := .verified, paymentVerified := true },
         insertStore sessions o.telegramUserId { s with notified := true },
         [.userVerified cid]⟩) ∧
    (∀ (text cap : String) (orders : List (String × Order)) (sessions : SessionStore)
        (oid : String) (o : Order) (s : Session) (cid : Int),
      pyStartsWith (pyLower text) "reject:" = true →
      captionOrderId cap = some oid →
      lookupStore orders oid = some o →
      o.status.isTerminal = false →
      lookupStore sessions o.telegramUserId = some s →
      s.chat_id = some cid →
      s.notified = false →
      handle_admin_reply (some text) (some cap) orders sessions true =
        ⟨insertStore orders oid
           { o with status := .rejected,
                    statusDetails := some (rejectReason (pyLower text)),
                    paymentVerified := false },
         insertStore sessions o.telegramUserId { s with notified := true },
         [.userRejected cid (rejectReason (pyLower text))]⟩) ∧
    (∀ (text cap : String) (orders : List (String × Order)) (sessions : SessionStore)
        (oid : String) (o : Order) (s : Session) (cid : Int) (sendOk : Bool),
      pyStartsWith (pyLower text) "approve" = true →
      pyLower text ≠ "approve" →
      pyStartsWith (pyLower text) "reject:" = false →
      captionOrderId cap = some oid →
      lookupStore orders oid = some o →
      lookupStore sessions o.telegramUserId = some s →
      s.chat_id = some cid →
      handle_admin_reply (some text) (some cap) orders sessions sendOk =
        ⟨orders, sessions, []⟩) ∧
    (∀ (text cap : String) (orders : List (String × Order)) (sessions : SessionStore)
        (sendOk : Bool),
      captionOrderId cap = none →
      handle_admin_reply (some text) (some cap) orders sessions sendOk =
        ⟨orders, sessions, []⟩) := by
  refine ⟨?_, ?_, ?_, ?_⟩
  · intro text cap orders sessions oid o s cid hlow hcap hord hstatus hsess hchat hnot
    have e1 : pyStartsWith "approve" "approve" = true := by decide
    simp [handle_admin_reply, hlow, hcap, hord, get_user_session_found _ _ _ hsess,
          hchat, hnot, Order.approve_payment, hstatus, e1]
  · intro text cap orders sessions oid o s cid hsw hcap hord hterm hsess hchat hnot
    have hne : ¬ (pyLower text = "approve") := by
      intro he
      rw [he] at hsw
      exact absurd hsw (by decide)
    simp [handle_admin_reply, hsw, hne, hcap, hord, get_user_session_found _ _ _ hsess,
          hchat, hnot, Order.reject_payment, hterm]
  · intro text cap orders sessions oid o s cid sendOk hpre hne hnr hcap hord hsess hchat
    simp [handle_admin_reply, hpre, hne, hnr, hcap, hord,
          get_user_session_found _ _ _ hsess, hchat]
  · intro text cap orders sessions sendOk hcap
    by_cases hOr : (pyStartsWith (pyLower text) "approve" = true ∨
        pyStartsWith (pyLower text) "reject:" = true)
    · simp [handle_admin_reply, hOr, hcap]
    · simp [handle_admin_reply, hOr, hcap]

/-- Witness for C4: each grammar case evaluated at concrete inputs —
exact 'Approve' approves, 'Reject:  Blurry receipt ' rejects with the
trimmed lowercased reason, 'approve now' is a no-op, and an unparseable
caption is silently ignored. -/
theorem claim_C4_witness :
    handle_admin_reply (some "Approve") (some paymentCap)
        [("O1", orderPending)] [("42", sessionWithChat)] true =
      ⟨[("O1", { orderPending with status := .verified, paymentVerified := true })],
       [("42", { sessionWithChat with notified := true })],
       [.userVerified 7]⟩ ∧
    handle_admin_reply (some "Reject:  Blurry receipt ") (some paymentCap)
        [("O1", orderPending)] [("42", sessionWithChat)] true =
      ⟨[("O1", { orderPending with
                   status := .rejected, statusDetails := some "blurry receipt",
                   paymentVerified := false })],
       [("42", { sessionWithChat with notified := true })],
       [.userRejected 7 "blurry receipt"]⟩ ∧
    handle_admin_reply (some "approve now") (some paymentCap)
        [("O1", orderPending)] [("42", sessionWithChat)] true =
      ⟨[("O1", orderPending)], [("42", sessionWithChat)], []⟩ ∧
    handle_admin_reply (some "approve") (some "no order reference here")
        [("O1", orderPending)] [("42", sessionWithChat)] true =
      ⟨[("O1", orderPending)], [("42", sessionWithChat)], []⟩ := by
  refine ⟨?_, ?_, ?_, ?_⟩
  · have h := claim_C4_admin_reply_grammar.1 "Approve" paymentCap
      [("O1", orderPending)] [("42", sessionWithChat)] "O1" orderPending sessionWithChat 7
      (by decide) (by decide) (by decide) rfl (by decide) rfl rfl
    rw [h]
    decide
  · have h := claim_C4_admin_reply_grammar.2.1 "Reject:  Blurry receipt " paymentCap
      [("O1", orderPending)] [("42", sessionWithChat)] "O1" orderPending sessionWithChat 7
      (by decide) (by decide) (by decide) rfl (by decide) rfl rfl
    rw [h]
    decide
  · exact claim_C4_admin_reply_grammar.2.2.1 "approve now" paymentCap
      [("O1", orderPending)] [("42", sessionWithChat)] "O1" orderPending sessionWithChat 7
      true (by decide) (by decide) (by decide) (by decide) (by decide) (by decide) rfl
  · exact claim_C4_admin_reply_grammar.2.2.2 "approve" "no order reference here"
      [("O1", orderPending)] [("42", sessionWithChat)] true (by decide)

/-- C5: on every approval and rejection path the status transition is
persisted before the notification is attempted, so when the send fails
the order store already holds the new status while the session's
`notified` flag stays false (reply handler: the failed `await` jumps to
the outer `except` before `session['notified'] = True`; button handler:
the inner `except` annotates the caption instead; reconciler: the
exception aborts the tick before `session['notified'] = True`), leaving
a later retry or reconciler tick able to deliver. -/
theorem claim_C5_persist_before_notify :
    (∀ (text cap : String) (orders : List (String × Order)) (sessions : SessionStore)
        (oid : String) (o : Order) (s : Session) (cid : Int),
      pyLower text = "approve" →
      captionOrderId cap = some oid →
      lookupStore orders oid = some o →
      o.status = .pending_verification →
      lookupStore sessions o.telegramUserId = some s →
      s.chat_id = some cid →
      s.notified = false →
      handle_admin_reply (some text) (some cap) orders sessions false =
        ⟨insertStore orders oid { o with status := .verified, paymentVerified := true },
         sessions, []⟩) ∧
    (∀ (text cap : String) (orders : List (String × Order)) (sessions : SessionStore)
        (oid : String) (o : Order) (s : Session) (cid : Int),
      pyStartsWith (pyLower text) "reject:" = true →
      captionOrderId cap = some oid →
      lookupStore orders oid = some o →
      o.status.isTerminal = false →
      lookupStore sessions o.telegramUserId = some s →
      s.chat_id = some cid →
      s.notified = false →
      handle_admin_reply (some text) (some cap) orders sessions false =
        ⟨insertStore orders oid
           { o with status := .rejected,
                    statusDetails := some (rejectReason (pyLower text)),
                    paymentVerified := false },
         sessions, []⟩) ∧
    (∀ (data : String) (orders : List (String × Order)) (sessions : SessionStore)
        (tid oid : String) (o : Order) (s : Session) (cid : Int),
      pySplitMax2 data = ["approve", tid, oid] →
      lookupStore sessions tid = some s →
      s.chat_id = some cid →
      lookupStore orders oid = some o →
      o.status = .pending_verification →
      handle_admin_response data orders sessions false =
        ⟨insertStore orders oid { o with status := .verified, paymentVerified := true },
         sessions, [.editCaption .approvedSendFailed]⟩) ∧
    (∀ (data : String) (orders : List (String × Order)) (sessions : SessionStore)
        (tid oid : String) (o : Order) (s : Session) (cid : Int),
      pySplitMax2 data = ["reject", tid, oid] →
      lookupStore sessions tid = some s →
      s.chat_id = some cid →
      lookupStore orders oid = some o →
      o.status.isTerminal = false →
      handle_admin_response data orders sessions false =
        ⟨insertStore orders oid
           { o with status := .rejected,
                    statusDetails := some "No reason provided",
                    paymentVerified := false },
         sessions, [.editCaption .rejectedSendFailed]⟩) ∧
    (∀ (fetch : String → FetchResult) (sok : Int → Bool) (uid : String) (s : Session)
        (rest : List (String × Session)) (oid : String) (cid : Int) (o : Order),
      s.order_id = some oid → s.chat_id = some cid → fetch oid = .found o →
      o.status.isTerminal = true → s.notified = false → sok cid = false →
      pollTick fetch sok ((uid, s) :: rest) = (uid, s) :: rest) := by
  refine ⟨?_, ?_, ?_, ?_, ?_⟩
  · intro text cap orders sessions oid o s cid hlow hcap hord hstatus hsess hchat hnot
    have e1 : pyStartsWith "approve" "approve" = true := by decide
    simp [handle_admin_reply, hlow, hcap, hord, get_user_session_found _ _ _ hsess,
          hchat, hnot, Order.approve_payment, hstatus, e1]
  · intro text cap orders sessions oid o s cid hsw hcap hord hterm hsess hchat hnot
    have hne : ¬ (pyLower text = "approve") := by
      intro he
      rw [he] at hsw
      exact absurd hsw (by decide)
    simp [handle_admin_reply, hsw, hne, hcap, hord, get_user_session_found _ _ _ hsess,
          hchat, hnot, Order.reject_payment, hterm]
  · intro data orders sessions tid oid o s cid hsplit hsess hchat hord hstatus
    simp [handle_admin_response, hsplit, get_user_session_found _ _ _ hsess, hchat,
          hord, Order.approve_payment, hstatus]
  · intro data orders sessions tid oid o s cid hsplit hsess hchat hord hterm
    simp [handle_admin_response, hsplit, get_user_session_found _ _ _ hsess, hchat,
          hord, Order.reject_payment, hterm]
  · intro fetch sok uid s rest oid cid o h1 h2 h3 h4 h5 h6
    simp [pollTick, h1, h2, h3, h4, h5, h6]

/-- Witness for C5: all five failure paths at concrete inputs with a
failing transport — the order store holds the new status, `notified`
stays false. -/
theorem claim_C5_witness :
    handle_admin_reply (some "approve") (some paymentCap)
        [("O1", orderPending)] [("42", sessionWithChat)] false =
      ⟨[("O1", { orderPending with status := .verified, paymentVerified := true })],
       [("42", sessionWithChat)], []⟩ ∧
    handle_admin_reply (some "reject: late") (some paymentCap)
        [("O1", orderPending)] [("42", sessionWithChat)] false =
      ⟨[("O1", { orderPending with
                   status := .rejected, statusDetails := some "late",
                   paymentVerified := false })],
       [("42", sessionWithChat)], []⟩ ∧
    handle_admin_response "approve_42_O1"
        [("O1", orderPending)] [("42", sessionWithChat)] false =
      ⟨[("O1", { orderPending with status := .verified, paymentVerified := true })],
       [("42", sessionWithChat)], [.editCaption .approvedSendFailed]⟩ ∧
    handle_admin_response "reject_42_O1"
        [("O1", orderPending)] [("42", sessionWithChat)] false =
      ⟨[("O1", { orderPending with
                   status := .rejected, statusDetails := some "No reason provided",
                   paymentVerified := false })],
       [("42", sessionWithChat)], [.editCaption .rejectedSendFailed]⟩ ∧
    pollTick fetchC3 sendC3 [("u1", sessC3a)] = [("u1", sessC3a)] := by
  refine ⟨?_, ?_, ?_, ?_, ?_⟩
  · have h := claim_C5_persist_before_notify.1 "approve" paymentCap
      [("O1", orderPending)] [("42", sessionWithChat)] "O1" orderPending sessionWithChat 7
      (by decide) (by decide) (by decide) rfl (by decide) rfl rfl
    rw [h]
    decide
  · have h := claim_C5_persist_before_notify.2.1 "reject: late" paymentCap
      [("O1", orderPending)] [("42", sessionWithChat)] "O1" orderPending sessionWithChat 7
      (by decide) (by decide) (by decide) rfl (by decide) rfl rfl
    rw [h]
    decide
  · have h := claim_C5_persist_before_notify.2.2.1 "approve_42_O1"
      [("O1", orderPending)] [("42", sessionWithChat)] "42" "O1" orderPending
      sessionWithChat 7 (by decide) (by decide) rfl (by decide) rfl
    rw [h]
    decide
  · have h := claim_C5_persist_before_notify.2.2.2.1 "reject_42_O1"
      [("O1", orderPending)] [("42", sessionWithChat)] "42" "O1" orderPending
      sessionWithChat 7 (by decide) (by decide) rfl (by decide) rfl
    rw [h]
    decide
  · exact claim_C5_persist_before_notify.2.2.2.2 fetchC3 sendC3 "u1" sessC3a [] "O1" 1
      (verifiedOrderFor "O1" "u1") rfl rfl rfl rfl rfl (by decide)

theorem getLastD_append_single {α : Type} (l : List α) (a d : α) :
    (l ++ [a]).getLastD d = a := by
  induction l with
  | nil => rfl
  | cons x xs ih => simp [List.getLastD] at ih ⊢

/-- C6: for each optional field, a literal (case-insensitive) 'skip'
leaves the collected attribute unset — `none`, never an empty string —
while any other text becomes the stored value: the contact link, the
education GPA and achievements (stored as Python `None`), the project
link (key left unwritten), and the career objective and other
activities (no item appended). -/
theorem claim_C6_skip_sentinel :
    (∀ (s : Session) (text : String), s.current_field = some "linkedinProfile" →
      (collect_contact_info s text).map (fun r => r.1.candidate_data.linkedinProfile) =
        some (if pyLower text = "skip" then none else some text)) ∧
    (∀ (s : Session) (text : String), s.current_field = some "edu_gpa" →
      (collect_education s text).map (fun r => r.1.current_education.gpa) =
        some (if pyLower text = "skip" then none else some text)) ∧
    (∀ (s : Session) (text : String), s.current_field = some "edu_achievementsHonors" →
      (collect_education s text).map (fun r => r.1.education) =
        some (s.education ++
          [{ s.current_education with
               achievementsHonors := if pyLower text = "skip" then none else some text }])) ∧
    (∀ (s : Session) (text : String), s.current_field = some "project_projectLink" →
      s.current_project.projectLink = none →
      (collect_projects s text).map (fun r => (r.1.projects.getLastD {}).projectLink) =
        some (if pyLower text = "skip" then none else some text)) ∧
    (∀ (s : Session) (text : String),
      (collect_career_objective s text).1.careerObjectives =
        if pyLower text = "skip" then s.careerObjectives
        else s.careerObjectives ++ [⟨text⟩]) ∧
    (∀ (s : Session) (text : String),
      (collect_activities s text).1.otherActivities =
        if pyLower text = "skip" then s.otherActivities
        else s.otherActivities ++ [⟨"Other", text⟩]) := by
  refine ⟨?_, ?_, ?_, ?_, ?_, ?_⟩
  · intro s text h
    simp [collect_contact_info, h]
  · intro s text h
    simp [collect_education, h]
  · intro s text h
    simp [collect_education, h]
  · intro s text h hlink
    by_cases hsk : pyLower text = "skip" <;>
      simp [collect_projects, h, hsk, getLastD_append_single, hlink]
  · intro s text
    by_cases hsk : pyLower text = "skip" <;> simp [collect_career_objective, hsk]
  · intro s text
    by_cases hsk : pyLower text = "skip" <;> simp [collect_activities, hsk]

/-- Witness for C6 at concrete sessions: 'SKIP' leaves each attribute
unset; ordinary text is stored. -/
theorem claim_C6_witness :
    (collect_contact_info { current_field := some "linkedinProfile" } "SKIP").map
        (fun r => r.1.candidate_data.linkedinProfile) = some none ∧
    (collect_contact_info { current_field := some "linkedinProfile" } "linkedin.example").map
        (fun r => r.1.candidate_data.linkedinProfile) = some (some "linkedin.example") ∧
    (collect_education { current_field := some "edu_gpa" } "skip").map
        (fun r => r.1.current_education.gpa) = some none ∧
    (collect_education { current_field := some "edu_achievementsHonors" } "skip").map
        (fun r => r.1.education) = some [{}] ∧
    (collect_projects { current_field := some "project_projectLink" } "skip").map
        (fun r => (r.1.projects.getLastD {}).projectLink) = some none ∧
    (collect_career_objective {} "skip").1.careerObjectives = [] ∧
    (collect_activities {} "Volunteering").1.otherActivities =
      [⟨"Other", "Volunteering"⟩] := by
  refine ⟨?_, ?_, ?_, ?_, ?_, ?_, ?_⟩
  · have h := claim_C6_skip_sentinel.1 { current_field := some "linkedinProfile" } "SKIP" rfl
    rw [h]
    decide
  · have h := claim_C6_skip_sentinel.1 { current_field := some "linkedinProfile" }
      "linkedin.example" rfl
    rw [h]
    decide
  · have h := claim_C6_skip_sentinel.2.1 { current_field := some "edu_gpa" } "skip" rfl
    rw [h]
    decide
  · have h := claim_C6_skip_sentinel.2.2.1
      { current_field := some "edu_achievementsHonors" } "skip" rfl
    rw [h]
    decide
  · have h := claim_C6_skip_sentinel.2.2.2.1
      { current_field := some "project_projectLink" } "skip" rfl rfl
    rw [h]
    decide
  · have h := claim_C6_skip_sentinel.2.2.2.2.1 ({} : Session) "skip"
    rw [h]
    decide
  · have h := claim_C6_skip_sentinel.2.2.2.2.2 ({} : Session) "Volunteering"
    rw [h]
    decide

/-- A cache hit answers immediately: unchanged cache, no external tier. -/
theorem resolve_cache_hit (w : TgWorld) (cache : List (String × Int)) (u : String) (uid : Int)
    (h : lookupStore cache (normalizeHandle u) = some uid) :
    resolve_username_to_id w cache u = (.ok uid, cache, []) := by
  simp [resolve_username_to_id, h]

/-- Every run of the resolver lands in one of three shapes: cache hit,
external success that writes the cache, or exhaustion of all tiers. -/
theorem resolve_cases (w : TgWorld) (cache : List (String × Int)) (u : String) :
    (∃ uid, lookupStore cache (normalizeHandle u) = some uid ∧
      resolve_username_to_id w cache u = (.ok uid, cache, [])) ∨
    (∃ uid trace, resolve_username_to_id w cache u =
      (.ok uid, insertStore cache (normalizeHandle u) uid, trace)) ∨
    resolve_username_to_id w cache u =
      (.error (), cache, [.getChat, .getAdmins, .getMember]) := by
  rcases h0 : lookupStore cache (normalizeHandle u) with _ | v
  · rcases h2 : tier2Result w (normalizeHandle u) with _ | v2
    · rcases h3 : tier3Result w (normalizeHandle u) with _ | v3
      · rcases h4 : tier4Result w (normalizeHandle u) with _ | v4
        · exact Or.inr (Or.inr (by simp [resolve_username_to_id, h0, h2, h3, h4]))
        · exact Or.inr (Or.inl ⟨v4, [.getChat, .getAdmins, .getMember],
            by simp [resolve_username_to_id, h0, h2, h3, h4]⟩)
      · exact Or.inr (Or.inl ⟨v3, [.getChat, .getAdmins],
          by simp [resolve_username_to_id, h0, h2, h3]⟩)
    · exact Or.inr (Or.inl ⟨v2, [.getChat], by simp [resolve_username_to_id, h0, h2]⟩)
  · exact Or.inl ⟨v, rfl, by simp [resolve_username_to_id, h0]⟩

/-- A successful resolution leaves the identity in the cache under the
normalized handle. -/
theorem resolve_ok_caches (w : TgWorld) (cache : List (String × Int)) (u : String) (uid : Int)
    (h : (resolve_username_to_id w cache u).1 = .ok uid) :
    lookupStore (resolve_username_to_id w cache u).2.1 (normalizeHandle u) = some uid := by
  rcases resolve_cases w cache u with ⟨v, h0, he⟩ | ⟨v, trace, he⟩ | he
  · rw [he] at h ⊢
    simp only at h ⊢
    injection h with h1
    rw [← h1]
    exact h0
  · rw [he] at h ⊢
    simp only at h ⊢
    injection h with h1
    rw [lookup_insertStore]
    simp [h1]
  · rw [he] at h
    cases h

/-- C8: the resolver tries cache, then private-chat lookup, then the
admin roster, then channel member, in that fixed order with the first
success winning and no tier failure aborting the chain; any success
populates the normalized-handle cache, so an immediately repeated call
answers from the cache invoking no external tier; exhausting every tier
fails with the unresolved error. -/
theorem claim_C8_resolver_tiers :
    (∀ (w : TgWorld) (cache : List (String × Int)) (u : String) (uid : Int),
      lookupStore cache (normalizeHandle u) = some uid →
      resolve_username_to_id w cache u = (.ok uid, cache, [])) ∧
    (∀ (w : TgWorld) (cache : List (String × Int)) (u : String) (uid : Int),
      (resolve_username_to_id w cache u).1 = .ok uid →
      lookupStore (resolve_username_to_id w cache u).2.1 (normalizeHandle u) = some uid) ∧
    (∀ (w w2 : TgWorld) (cache : List (String × Int)) (u : String) (uid : Int),
      (resolve_username_to_id w cache u).1 = .ok uid →
      resolve_username_to_id w2 (resolve_username_to_id w cache u).2.1 u =
        (.ok uid, (resolve_username_to_id w cache u).2.1, [])) ∧
    (∀ (w : TgWorld) (cache : List (String × Int)) (u : String) (uid : Int),
      lookupStore cache (normalizeHandle u) = none →
      tier2Result w (normalizeHandle u) = none →
      tier3Result w (normalizeHandle u) = some uid →
      resolve_username_to_id w cache u =
        (.ok uid, insertStore cache (normalizeHandle u) uid, [.getChat, .getAdmins])) ∧
    (∀ (w : TgWorld) (cache : List (String × Int)) (u : String),
      lookupStore cache (normalizeHandle u) = none →
      tier2Result w (normalizeHandle u) = none →
      tier3Result w (normalizeHandle u) = none →
      tier4Result w (normalizeHandle u) = none →
      resolve_username_to_id w cache u =
        (.error (), cache, [.getChat, .getAdmins, .getMember])) ∧
    (∀ (w : TgWorld) (cache : List (String × Int)) (u : String),
      (resolve_username_to_id w cache u).2.2 ∈
        ([[], [.getChat], [.getChat, .getAdmins], [.getChat, .getAdmins, .getMember]] :
          List (List Tier))) := by
  refine ⟨resolve_cache_hit, resolve_ok_caches, ?_, ?_, ?_, ?_⟩
  · intro w w2 cache u uid h
    exact resolve_cache_hit w2 (resolve_username_to_id w cache u).2.1 u uid
      (resolve_ok_caches w cache u uid h)
  · intro w cache u uid h0 h2 h3
    simp [resolve_username_to_id, h0, h2, h3]
  · intro w cache u h0 h2 h3 h4
    simp [resolve_username_to_id, h0, h2, h3, h4]
  · intro w cache u
    rcases h0 : lookupStore cache (normalizeHandle u) with _ | v
    · rcases h2 : tier2Result w (normalizeHandle u) with _ | v2
      · rcases h3 : tier3Result w (normalizeHandle u) with _ | v3
        · rcases h4 : tier4Result w (normalizeHandle u) with _ | v4 <;>
            simp [resolve_username_to_id, h0, h2, h3, h4]
        · simp [resolve_username_to_id, h0, h2, h3]
      · simp [resolve_username_to_id, h0, h2]
    · simp [resolve_username_to_id, h0]

/-- The resolver scenario world: direct chat lookup fails, the handle
is found among the channel administrators. -/
def worldAdminHit : TgWorld :=
  { getChat := fun _ => none, getAdmins := some [⟨some "Alice", 42⟩],
    getMember := fun _ => none }

/-- A world in which every external tier fails. -/
def worldAllFail : TgWorld :=
  { getChat := fun _ => none, getAdmins := none, getMember := fun _ => none }

/-- Witness for C8, the spec's resolver scenario: '@Alice' is not
cached, `get_chat` fails, the admin roster matches — the identity is
returned and cached — and the second call answers from the cache with
no external tier even against a world where every tier fails; a handle
no tier can resolve errors out. -/
theorem claim_C8_witness :
    resolve_username_to_id worldAdminHit [] "@Alice" =
      (.ok 42, [("alice", 42)], [.getChat, .getAdmins]) ∧
    resolve_username_to_id worldAllFail [("alice", 42)] "@Alice" =
      (.ok 42, [("alice", 42)], []) ∧
    resolve_username_to_id worldAllFail [] "@nobody" =
      (.error (), [], [.getChat, .getAdmins, .getMember]) := by
  refine ⟨?_, ?_, ?_⟩
  · exact claim_C8_resolver_tiers.2.2.2.1 worldAdminHit [] "@Alice" 42 rfl rfl (by decide)
  · exact claim_C8_resolver_tiers.1 worldAllFail [("alice", 42)] "@Alice" 42 (by decide)
  · exact claim_C8_resolver_tiers.2.2.2.2.1 worldAllFail [] "@nobody" rfl rfl rfl rfl

end CVMaker
